import Mathlib

/-!
Shallow embedding of `gitstat` (src/main.rs): a shell-prompt helper that
classifies a git repository's state and renders it as one line of text.

The git2 backend is modelled abstractly: each fallible backend query is a
field of a `Repo` record holding its result (`Except GError _`), and the
per-path status flags reported by the status scan are modelled as the
libgit2 `git_status_t` bitmask (a `Nat`).
-/

/-- libgit2 error codes used by the program (`git2::ErrorCode`). -/
inductive ErrorCode where
  | NotFound
  | UnbornBranch
  | GenericError
deriving DecidableEq, Repr

/-- A backend (git2) error, carrying its code. -/
structure GError where
  code : ErrorCode
deriving DecidableEq, Repr

/-- An `anyhow::Error`: either a propagated backend error or a message
built with `anyhow!`. -/
inductive AError where
  | backend (e : GError)
  | msg (s : String)
deriving DecidableEq, Repr

/-- git status flag bits (`git2::Status`), as in libgit2's `git_status_t`. -/
def INDEX_NEW : Nat := 1
def INDEX_MODIFIED : Nat := 2
def INDEX_DELETED : Nat := 4
def INDEX_RENAMED : Nat := 8
def INDEX_TYPECHANGE : Nat := 16
def WT_NEW : Nat := 128
def WT_MODIFIED : Nat := 256
def WT_DELETED : Nat := 512
def WT_TYPECHANGE : Nat := 1024
def WT_RENAMED : Nat := 2048
def CONFLICTED : Nat := 32768

/-- `git2::Status::intersects`: the two bitmasks share a set bit. -/
def intersects (s t : Nat) : Prop := s &&& t ≠ 0

instance (s t : Nat) : Decidable (intersects s t) := by
  unfold intersects; infer_instance

/-- `status.is_conflicted()`. -/
def is_conflicted (s : Nat) : Prop := intersects s CONFLICTED

instance (s : Nat) : Decidable (is_conflicted s) := by
  unfold is_conflicted; infer_instance

/-- `status.is_wt_new()`. -/
def is_wt_new (s : Nat) : Prop := intersects s WT_NEW

instance (s : Nat) : Decidable (is_wt_new s) := by
  unfold is_wt_new; infer_instance

/-- The working-tree-changed mask bound in `Status::from_repo`. -/
def wt_changed_status : Nat :=
  WT_MODIFIED ||| WT_DELETED ||| WT_TYPECHANGE ||| WT_RENAMED

/-- The index-changed mask bound in `Status::from_repo`. -/
def index_changed_status : Nat :=
  INDEX_MODIFIED ||| INDEX_DELETED ||| INDEX_TYPECHANGE ||| INDEX_RENAMED

/-- The four counters of `struct Status`. -/
structure Status where
  staged : Nat
  conflicts : Nat
  changed : Nat
  untracked : Nat
deriving DecidableEq, Repr

/-- The body of the `for` loop in `Status::from_repo`: evaluate the four
independent predicates on one entry's flag set and increment each counter
whose predicate holds. -/
def countEntry (s : Status) (entry : Nat) : Status :=
  let s := if is_conflicted entry then { s with conflicts := s.conflicts + 1 } else s
  let s := if intersects entry wt_changed_status then { s with changed := s.changed + 1 } else s
  let s := if is_wt_new entry then { s with untracked := s.untracked + 1 } else s
  let s := if intersects entry index_changed_status then { s with staged := s.staged + 1 } else s
  s

/-- The loop of `Status::from_repo` over the reported entries, starting
from all-zero counters. -/
def Status.from_entries (entries : List Nat) : Status :=
  entries.foldl countEntry ⟨0, 0, 0, 0⟩

/-- `DisplayStat`: `"{} {} {} {}"` over staged, conflicts, changed,
untracked. -/
def Status.display_stat (s : Status) : String :=
  toString s.staged ++ " " ++ toString s.conflicts ++ " " ++
    toString s.changed ++ " " ++ toString s.untracked

/-- A commit object id (`git2::Oid`), modelled by its canonical hex text. -/
abbrev Oid : Type := String

/-- `Oid::to_string` (already text in the model). -/
def Oid.to_string (o : Oid) : String := o

/-- `struct Distance { ahead: usize, behind: usize }`. -/
structure Distance where
  ahead : Nat
  behind : Nat
deriving DecidableEq, Repr

/-- `Distance::as_pair`. -/
def Distance.as_pair (d : Distance) : Nat × Nat := (d.ahead, d.behind)

/-- `struct Remote { branch: String, distance: Option<Distance> }`. -/
structure Remote where
  branch : String
  distance : Option Distance
deriving DecidableEq, Repr

/-- `struct BranchInfo { name: String, remote: Option<Remote> }`. -/
structure BranchInfo where
  name : String
  remote : Option Remote
deriving DecidableEq, Repr

/-- `enum GitInfo`. -/
inductive GitInfo where
  | Branch (branch : BranchInfo) (status : Status) (oid : Oid)
  | Detached (oid : Oid) (status : Status)
  | Unborn (status : Status)
deriving DecidableEq, Repr

/-- The upstream branch handle returned by `Branch::upstream`:
`get().peel_to_commit()` and `name()` (the latter yields `None` for a
non-UTF-8 name). -/
structure UpstreamBranch where
  peel_to_commit : Except GError Oid
  name : Except GError (Option String)

/-- A local branch handle returned by `Repository::find_branch`:
`get().peel_to_commit()` and `upstream()`. -/
structure LocalBranch where
  peel_to_commit : Except GError Oid
  upstream : Except GError UpstreamBranch

/-- The head reference returned by `Repository::head`:
`peel_to_commit` (the commit's id) and `shorthand` (the branch's short
name, `None` when not valid UTF-8). -/
structure HeadRef where
  peel_to_commit : Except GError Oid
  shorthand : Option String

/-- The backend handle (`git2::Repository`), modelled as the results of
the queries the program makes of it. -/
structure Repo where
  head : Except GError HeadRef
  head_detached : Except GError Bool
  statuses : Except GError (List Nat)
  find_branch : String → Except GError LocalBranch
  graph_ahead_behind : Oid → Oid → Except GError (Nat × Nat)

/-- `Status::from_repo`: run the status scan and fold the counters. -/
def Status.from_repo (repo : Repo) : Except GError Status :=
  match repo.statuses with
  | .error e => .error e
  | .ok entries => .ok (Status.from_entries entries)

/-- `Remote::from_repo`: resolve the local branch's upstream and the
ahead/behind distance; translate a not-found upstream to `None`. -/
def Remote.from_repo (repo : Repo) (local_branch : String) :
    Except AError (Option Remote) :=
  match repo.find_branch local_branch with
  | .error e => .error (.backend e)
  | .ok branch =>
    match branch.upstream with
    | .error e =>
      if e.code = ErrorCode.NotFound then .ok none
      else .error (.backend e)
    | .ok upstream =>
      match branch.peel_to_commit with
      | .error e => .error (.backend e)
      | .ok local_commit =>
        match upstream.peel_to_commit with
        | .error e => .error (.backend e)
        | .ok upstream_commit =>
          match repo.graph_ahead_behind local_commit upstream_commit with
          | .error e => .error (.backend e)
          | .ok (ahead, behind) =>
            match upstream.name with
            | .error e => .error (.backend e)
            | .ok none =>
              .error (.msg ("non-UTF8 upstream branch name for local branch  "
                ++ local_branch))
            | .ok (some nm) =>
              .ok (some { branch := nm, distance := some ⟨ahead, behind⟩ })

/-- Outcome of running a fallible Rust function that may also panic
(`unimplemented!`). -/
inductive Outcome (α : Type) where
  | ok (a : α)
  | err (e : AError)
  | panic
deriving DecidableEq, Repr

/-- `GitInfo::from_repo`: classify the repository's state. -/
def GitInfo.from_repo (repo : Repo) : Outcome GitInfo :=
  match repo.head with
  | .error e =>
    if e.code = ErrorCode.UnbornBranch then
      match Status.from_repo repo with
      | .ok st => .ok (GitInfo.Unborn st)
      | .error e2 => .err (.backend e2)
    else .err (.backend e)
  | .ok head =>
    match head.peel_to_commit with
    | .error e => .err (.backend e)
    | .ok oid =>
      match repo.head_detached with
      | .error e => .err (.backend e)
      | .ok true =>
        match Status.from_repo repo with
        | .ok st => .ok (GitInfo.Detached oid st)
        | .error e => .err (.backend e)
      | .ok false =>
        match head.shorthand with
        | some name =>
          match Remote.from_repo repo name with
          | .error e => .err e
          | .ok remote =>
            match Status.from_repo repo with
            | .ok st => .ok (GitInfo.Branch ⟨name, remote⟩ st oid)
            | .error e => .err (.backend e)
        | none => .panic

/-- `impl Display for Prompt`: render a `GitInfo` as the one-line prompt
string. -/
def GitInfo.prompt : GitInfo → String
  | .Branch branch status _ =>
    let ab : Nat × Nat :=
      match branch.remote with
      | some remote =>
        match remote.distance with
        | some d => d.as_pair
        | none => (0, 0)
      | none => (0, 0)
    branch.name ++ " " ++ toString ab.1 ++ " " ++ toString ab.2 ++ " " ++
      status.display_stat
  | .Detached oid status =>
    let short_oid : String := (Oid.to_string oid).take 6
    ":" ++ short_oid ++ " 0 0 " ++ status.display_stat
  | .Unborn status =>
    "? 0 0 " ++ status.display_stat

/-- `fn info()`: discover the repository (result supplied as input) and
classify it; a not-found discovery is translated to `None`. -/
def info (discover : Except GError Repo) : Outcome (Option GitInfo) :=
  match discover with
  | .error e =>
    if e.code = ErrorCode.NotFound then .ok none
    else .err (.backend e)
  | .ok repo =>
    match GitInfo.from_repo repo with
    | .ok i => .ok (some i)
    | .err e => .err e
    | .panic => .panic

/-- `fn main()`: what is printed to standard output and the process exit
code chosen (diagnostics on failure go to standard error, not modelled). -/
def mainResult (discover : Except GError Repo) : Outcome (String × Nat) :=
  match info discover with
  | .ok (some i) => .ok (i.prompt, 0)
  | .ok none => .ok ("", 0)
  | .err _ => .ok ("", 1)
  | .panic => .panic

/-- Rendering of the `OnBranch` case as the spec's §4.4 words describe it:
branch name, ahead, behind, staged, conflicts, changed, untracked,
space-separated, with ahead/behind defaulting to `0 0` when there is no
remote or no distance. Written from the spec to compare with the code's
renderer. -/
def onBranchRenderedSpec (name : String) (remote : Option Remote)
    (st : Status) : String :=
  let ab : Nat × Nat :=
    match remote with
    | none => (0, 0)
    | some r =>
      match r.distance with
      | none => (0, 0)
      | some d => (d.ahead, d.behind)
  name ++ " " ++ toString ab.1 ++ " " ++ toString ab.2 ++ " " ++
    toString st.staged ++ " " ++ toString st.conflicts ++ " " ++
    toString st.changed ++ " " ++ toString st.untracked

/-- A repository whose head resolution reports an unborn branch and whose
status scan reports one conflicted path. -/
def unbornRepo : Repo where
  head := .error ⟨ErrorCode.UnbornBranch⟩
  head_detached := .ok false
  statuses := .ok [CONFLICTED]
  find_branch := fun _ => .error ⟨ErrorCode.NotFound⟩
  graph_ahead_behind := fun _ _ => .error ⟨ErrorCode.GenericError⟩

/-- A repository with a detached head and one conflicted path. -/
def detachedRepo : Repo where
  head := .ok ⟨.ok "0123456789abcdef0123456789abcdef01234567", none⟩
  head_detached := .ok true
  statuses := .ok [CONFLICTED]
  find_branch := fun _ => .error ⟨ErrorCode.NotFound⟩
  graph_ahead_behind := fun _ _ => .error ⟨ErrorCode.GenericError⟩

/-- A repository whose non-detached head has no resolvable short name. -/
def noNameRepo : Repo where
  head := .ok ⟨.ok "deadbeefdeadbeefdeadbeefdeadbeefdeadbeef", none⟩
  head_detached := .ok false
  statuses := .ok []
  find_branch := fun _ => .error ⟨ErrorCode.NotFound⟩
  graph_ahead_behind := fun _ _ => .error ⟨ErrorCode.GenericError⟩

/-- The upstream of `main` in the fully-configured example repository. -/
def upstreamMain : UpstreamBranch where
  peel_to_commit := .ok "e5f6a7b8e5f6a7b8e5f6a7b8e5f6a7b8e5f6a7b8"
  name := .ok (some "origin/main")

/-- The local branch `main` with a configured upstream. -/
def mainBranch : LocalBranch where
  peel_to_commit := .ok "a1b2c3d4a1b2c3d4a1b2c3d4a1b2c3d4a1b2c3d4"
  upstream := .ok upstreamMain

/-- A repository on branch `main`, 2 ahead / 1 behind its upstream, with
one staged (index-modified) path. -/
def branchRepo : Repo where
  head := .ok ⟨.ok "a1b2c3d4a1b2c3d4a1b2c3d4a1b2c3d4a1b2c3d4", some "main"⟩
  head_detached := .ok false
  statuses := .ok [INDEX_MODIFIED]
  find_branch := fun nm =>
    if nm = "main" then .ok mainBranch else .error ⟨ErrorCode.NotFound⟩
  graph_ahead_behind := fun _ _ => .ok (2, 1)

/-- A local branch whose upstream lookup reports not-found. -/
def noUpstreamBranch : LocalBranch where
  peel_to_commit := .ok "aaaaaaaaaaaaaaaaaaaaaaaaaaaaaaaaaaaaaaaa"
  upstream := .error ⟨ErrorCode.NotFound⟩

/-- A repository whose branches have no configured upstream. -/
def noUpstreamRepo : Repo where
  head := .ok ⟨.ok "aaaaaaaaaaaaaaaaaaaaaaaaaaaaaaaaaaaaaaaa", some "feature"⟩
  head_detached := .ok false
  statuses := .ok []
  find_branch := fun _ => .ok noUpstreamBranch
  graph_ahead_behind := fun _ _ => .ok (0, 0)

/-- An upstream branch whose fully-qualified name is not valid UTF-8
(`name()` yields `Ok(None)`). -/
def nonUtf8Upstream : UpstreamBranch where
  peel_to_commit := .ok "e5f6a7b8e5f6a7b8e5f6a7b8e5f6a7b8e5f6a7b8"
  name := .ok none

/-- A local branch whose upstream has a non-UTF-8 name. -/
def nonUtf8Branch : LocalBranch where
  peel_to_commit := .ok "a1b2c3d4a1b2c3d4a1b2c3d4a1b2c3d4a1b2c3d4"
  upstream := .ok nonUtf8Upstream

/-- A repository whose upstream branch name is not valid UTF-8. -/
def nonUtf8Repo : Repo where
  head := .ok ⟨.ok "a1b2c3d4a1b2c3d4a1b2c3d4a1b2c3d4a1b2c3d4", some "dev"⟩
  head_detached := .ok false
  statuses := .ok []
  find_branch := fun _ => .ok nonUtf8Branch
  graph_ahead_behind := fun _ _ => .ok (0, 0)

/-- A repository discovery that fails with `NotFound`: the starting
location is not inside any repository. -/
def notFoundDiscover : Except GError Repo := .error ⟨ErrorCode.NotFound⟩

section AggregatorLemmas

lemma countEntry_conflicts (s : Status) (e : Nat) :
    (countEntry s e).conflicts =
      s.conflicts + (if is_conflicted e then 1 else 0) := by
  unfold countEntry
  split <;> split <;> split <;> split <;> simp

lemma countEntry_changed (s : Status) (e : Nat) :
    (countEntry s e).changed =
      s.changed + (if intersects e wt_changed_status then 1 else 0) := by
  unfold countEntry
  split <;> split <;> split <;> split <;> simp

lemma countEntry_untracked (s : Status) (e : Nat) :
    (countEntry s e).untracked =
      s.untracked + (if is_wt_new e then 1 else 0) := by
  unfold countEntry
  split <;> split <;> split <;> split <;> simp

lemma countEntry_staged (s : Status) (e : Nat) :
    (countEntry s e).staged =
      s.staged + (if intersects e index_changed_status then 1 else 0) := by
  unfold countEntry
  split <;> split <;> split <;> split <;> simp

lemma foldl_countEntry_conflicts (l : List Nat) (init : Status) :
    (l.foldl countEntry init).conflicts =
      init.conflicts + l.countP (fun e => decide (is_conflicted e)) := by
  induction l generalizing init with
  | nil => simp
  | cons a l ih =>
    rw [List.foldl_cons, ih, List.countP_cons, countEntry_conflicts]
    by_cases h : is_conflicted a <;> (simp [h]; try omega)

lemma foldl_countEntry_changed (l : List Nat) (init : Status) :
    (l.foldl countEntry init).changed =
      init.changed +
        l.countP (fun e => decide (intersects e wt_changed_status)) := by
  induction l generalizing init with
  | nil => simp
  | cons a l ih =>
    rw [List.foldl_cons, ih, List.countP_cons, countEntry_changed]
    by_cases h : intersects a wt_changed_status <;> (simp [h]; try omega)

lemma foldl_countEntry_untracked (l : List Nat) (init : Status) :
    (l.foldl countEntry init).untracked =
      init.untracked + l.countP (fun e => decide (is_wt_new e)) := by
  induction l generalizing init with
  | nil => simp
  | cons a l ih =>
    rw [List.foldl_cons, ih, List.countP_cons, countEntry_untracked]
    by_cases h : is_wt_new a <;> (simp [h]; try omega)

lemma foldl_countEntry_staged (l : List Nat) (init : Status) :
    (l.foldl countEntry init).staged =
      init.staged +
        l.countP (fun e => decide (intersects e index_changed_status)) := by
  induction l generalizing init with
  | nil => simp
  | cons a l ih =>
    rw [List.foldl_cons, ih, List.countP_cons, countEntry_staged]
    by_cases h : intersects a index_changed_status <;> (simp [h]; try omega)

/-- Closed form of the aggregation: each counter is the number of entries
satisfying its predicate. -/
lemma from_entries_eq (l : List Nat) :
    Status.from_entries l =
      ⟨l.countP (fun e => decide (intersects e index_changed_status)),
       l.countP (fun e => decide (is_conflicted e)),
       l.countP (fun e => decide (intersects e wt_changed_status)),
       l.countP (fun e => decide (is_wt_new e))⟩ := by
  unfold Status.from_entries
  have hst := foldl_countEntry_staged l ⟨0, 0, 0, 0⟩
  have hco := foldl_countEntry_conflicts l ⟨0, 0, 0, 0⟩
  have hch := foldl_countEntry_changed l ⟨0, 0, 0, 0⟩
  have hun := foldl_countEntry_untracked l ⟨0, 0, 0, 0⟩
  cases h : l.foldl countEntry ⟨0, 0, 0, 0⟩
  rw [h] at hst hco hch hun
  simp at hst hco hch hun
  simp [hst, hco, hch, hun]

end AggregatorLemmas

/-- C6: for each path reported by the status scan, the aggregator evaluates
four independent predicates (conflicted, working-copy-changed, untracked,
index-changed) and increments every counter whose predicate holds; each
reported path is processed by this step; a path that is simultaneously
staged and conflicted increments both the staged and conflicts counters in
the same scan. -/
theorem aggregator_four_independent_predicates :
    (∀ (s : Status) (e : Nat),
      (countEntry s e).conflicts =
          s.conflicts + (if is_conflicted e then 1 else 0) ∧
      (countEntry s e).changed =
          s.changed + (if intersects e wt_changed_status then 1 else 0) ∧
      (countEntry s e).untracked =
          s.untracked + (if is_wt_new e then 1 else 0) ∧
      (countEntry s e).staged =
          s.staged + (if intersects e index_changed_status then 1 else 0)) ∧
    (∀ (l : List Nat) (e : Nat),
      Status.from_entries (l ++ [e]) = countEntry (Status.from_entries l) e) ∧
    (∀ (s : Status) (e : Nat),
      is_conflicted e → intersects e index_changed_status →
      (countEntry s e).conflicts = s.conflicts + 1 ∧
      (countEntry s e).staged = s.staged + 1) := by
  refine ⟨?_, ?_, ?_⟩
  · intro s e
    exact ⟨countEntry_conflicts s e, countEntry_changed s e,
      countEntry_untracked s e, countEntry_staged s e⟩
  · intro l e
    unfold Status.from_entries
    rw [List.foldl_append]
    rfl
  · intro s e hc hi
    constructor
    · rw [countEntry_conflicts, if_pos hc]
    · rw [countEntry_staged, if_pos hi]

/-- Witness for C6: a path flagged both index-modified and conflicted
(flag set 2 + 32768 = 32770) bumps both counters from zero to one. -/
theorem aggregator_four_independent_predicates_witness :
    (countEntry ⟨0, 0, 0, 0⟩ 32770).conflicts = 0 + 1 ∧
    (countEntry ⟨0, 0, 0, 0⟩ 32770).staged = 0 + 1 :=
  aggregator_four_independent_predicates.2.2 ⟨0, 0, 0, 0⟩ 32770
    (by decide) (by decide)

/-- C7: every counter produced by the aggregator is non-negative, and
permuting the order of path enumeration leaves all four final counts
unchanged. -/
theorem status_counts_nonneg_commutative :
    (∀ l : List Nat,
      0 ≤ (Status.from_entries l).staged ∧
      0 ≤ (Status.from_entries l).conflicts ∧
      0 ≤ (Status.from_entries l).changed ∧
      0 ≤ (Status.from_entries l).untracked) ∧
    (∀ l₁ l₂ : List Nat, l₁.Perm l₂ →
      Status.from_entries l₁ = Status.from_entries l₂) := by
  constructor
  · intro l
    exact ⟨Nat.zero_le _, Nat.zero_le _, Nat.zero_le _, Nat.zero_le _⟩
  · intro l₁ l₂ h
    rw [from_entries_eq, from_entries_eq]
    simp [h.countP_eq]

/-- Witness for C7: swapping a staged path and a conflicted path in the
enumeration yields the same aggregate. -/
theorem status_counts_nonneg_commutative_witness :
    Status.from_entries [2, 32768] = Status.from_entries [32768, 2] :=
  status_counts_nonneg_commutative.2 [2, 32768] [32768, 2] (by decide)

/-- C10: a path whose only flag is index-new (flag set `INDEX_NEW = 1`)
increments none of the four counters: the aggregation step leaves every
counter unchanged, so dropping such an entry from the scan changes
nothing. -/
theorem index_new_only_increments_nothing :
    (∀ s : Status, countEntry s INDEX_NEW = s) ∧
    (∀ l : List Nat,
      Status.from_entries (INDEX_NEW :: l) = Status.from_entries l) := by
  have h1 : ¬ is_conflicted INDEX_NEW := by decide
  have h2 : ¬ intersects INDEX_NEW wt_changed_status := by decide
  have h3 : ¬ is_wt_new INDEX_NEW := by decide
  have h4 : ¬ intersects INDEX_NEW index_changed_status := by decide
  have hstep : ∀ s : Status, countEntry s INDEX_NEW = s := by
    intro s
    simp only [countEntry, if_neg h1, if_neg h2, if_neg h3, if_neg h4]
  refine ⟨hstep, ?_⟩
  intro l
  unfold Status.from_entries
  rw [List.foldl_cons, hstep]

/-- C1 counterexample: an Unborn state renders its computed status counts
(not always zeros), and a Detached state truncates the head id to 6
characters and renders its status counts, so neither equality of the claim
holds. -/
theorem render_zero_fields_counterexample :
    (GitInfo.Unborn ⟨1, 0, 0, 0⟩).prompt ≠ "? 0 0 0 0 0 0" ∧
    (GitInfo.Detached "0123456789abcdef0123456789abcdef01234567"
        ⟨0, 0, 0, 0⟩).prompt ≠
      ":0123456789abcdef0123456789abcdef01234567 0 0 0 0 0 0" := by
  constructor
  · decide
  · decide

/-- C1 amended: `render(Unborn{status})` is exactly `"? 0 0 "` followed by
the four status counters, and `render(Detached{head, status})` is exactly
`":"` followed by the first 6 characters of the head id's text, `" 0 0 "`,
and the four status counters (ahead/behind are always zero in these two
states; the status fields are the computed counts, and the head id is
truncated). -/
theorem render_unborn_detached_amended :
    (∀ st : Status, (GitInfo.Unborn st).prompt =
      "? 0 0 " ++ toString st.staged ++ " " ++ toString st.conflicts ++
        " " ++ toString st.changed ++ " " ++ toString st.untracked) ∧
    (∀ (oid : Oid) (st : Status), (GitInfo.Detached oid st).prompt =
      ":" ++ (Oid.to_string oid).take 6 ++ " 0 0 " ++ toString st.staged ++
        " " ++ toString st.conflicts ++ " " ++ toString st.changed ++ " " ++
        toString st.untracked) := by
  constructor
  · intro st
    simp [GitInfo.prompt, Status.display_stat, String.append_assoc]
  · intro oid st
    simp [GitInfo.prompt, Status.display_stat, String.append_assoc]

/-- C4: the OnBranch rendering is exactly the branch name, ahead, behind,
staged, conflicts, changed, untracked, space-separated, where ahead/behind
default to `0 0` when there is no remote tracking info or no distance:
the code's renderer agrees with the spec-worded format on every input. -/
theorem on_branch_render_matches_spec :
    ∀ (name : String) (remote : Option Remote) (st : Status) (oid : Oid),
      (GitInfo.Branch ⟨name, remote⟩ st oid).prompt =
        onBranchRenderedSpec name remote st := by
  intro name remote st oid
  cases remote with
  | none =>
    simp [GitInfo.prompt, onBranchRenderedSpec, Status.display_stat,
      String.append_assoc]
  | some r =>
    cases hr : r.distance with
    | none =>
      simp [GitInfo.prompt, onBranchRenderedSpec, Status.display_stat, hr,
        String.append_assoc]
    | some d =>
      simp [GitInfo.prompt, onBranchRenderedSpec, Status.display_stat, hr,
        Distance.as_pair, String.append_assoc]

/-- C2 counterexample: on an unborn-head repository with one conflicted
path, classify returns `Unborn` carrying the computed status (conflicts =
1), and on a detached-head repository likewise `Detached` carries the
computed status: the status aggregator IS invoked in both cases. -/
theorem classify_status_omission_counterexample :
    GitInfo.from_repo unbornRepo = .ok (GitInfo.Unborn ⟨0, 1, 0, 0⟩) ∧
    GitInfo.from_repo detachedRepo =
      .ok (GitInfo.Detached "0123456789abcdef0123456789abcdef01234567"
        ⟨0, 1, 0, 0⟩) := by
  constructor
  · decide
  · decide

/-- C2 amended: when head resolution fails with the unborn-branch
condition, classify computes the working-copy status and returns
`Unborn { status }`; when the head is detached, it computes the status and
returns `Detached { head, status }` — in both cases the returned state
carries the aggregator's result. -/
theorem classify_unborn_detached_carry_status :
    (∀ (repo : Repo) (e : GError) (st : Status),
      repo.head = .error e → e.code = ErrorCode.UnbornBranch →
      Status.from_repo repo = .ok st →
      GitInfo.from_repo repo = .ok (GitInfo.Unborn st)) ∧
    (∀ (repo : Repo) (h : HeadRef) (oid : Oid) (st : Status),
      repo.head = .ok h → h.peel_to_commit = .ok oid →
      repo.head_detached = .ok true →
      Status.from_repo repo = .ok st →
      GitInfo.from_repo repo = .ok (GitInfo.Detached oid st)) := by
  constructor
  · intro repo e st hh hc hs
    unfold GitInfo.from_repo
    rw [hh]
    simp [hc, hs]
  · intro repo h oid st hh hp hd hs
    unfold GitInfo.from_repo
    rw [hh]
    simp [hp, hd, hs]

/-- Witness for C2: both branches of the amended claim applied to the
concrete unborn and detached repositories. -/
theorem classify_unborn_detached_carry_status_witness :
    GitInfo.from_repo unbornRepo = .ok (GitInfo.Unborn ⟨0, 1, 0, 0⟩) ∧
    GitInfo.from_repo detachedRepo =
      .ok (GitInfo.Detached "0123456789abcdef0123456789abcdef01234567"
        ⟨0, 1, 0, 0⟩) :=
  ⟨classify_unborn_detached_carry_status.1 unbornRepo
      ⟨ErrorCode.UnbornBranch⟩ ⟨0, 1, 0, 0⟩ rfl rfl rfl,
   classify_unborn_detached_carry_status.2 detachedRepo
      ⟨.ok "0123456789abcdef0123456789abcdef01234567", none⟩
      "0123456789abcdef0123456789abcdef01234567" ⟨0, 1, 0, 0⟩
      rfl rfl rfl rfl⟩

/-- C9: when the head is neither unborn nor detached but the backend
yields no short branch name, classify ends in a panic (the
`unimplemented!()` arm), not a recoverable error value; and under the
precondition that the backend supplies a short name for every resolved
head, classify never panics. -/
theorem missing_shorthand_is_panic :
    (∀ (repo : Repo) (h : HeadRef) (oid : Oid),
      repo.head = .ok h → h.peel_to_commit = .ok oid →
      repo.head_detached = .ok false → h.shorthand = none →
      GitInfo.from_repo repo = .panic) ∧
    (∀ repo : Repo,
      (∀ h : HeadRef, repo.head = .ok h → h.shorthand.isSome) →
      GitInfo.from_repo repo ≠ .panic) := by
  constructor
  · intro repo h oid hh hp hd hsh
    unfold GitInfo.from_repo
    rw [hh]
    simp [hp, hd, hsh]
  · intro repo hpre
    cases hh : repo.head with
    | error e =>
      simp only [GitInfo.from_repo, hh]
      split
      · cases hs : Status.from_repo repo <;> simp
      · simp
    | ok h =>
      obtain ⟨nm, hnm⟩ := Option.isSome_iff_exists.mp (hpre h hh)
      simp only [GitInfo.from_repo, hh]
      cases hp : h.peel_to_commit with
      | error e => simp
      | ok oid =>
        cases hd : repo.head_detached with
        | error e => simp
        | ok b =>
          cases b with
          | true => cases hs : Status.from_repo repo <;> simp
          | false =>
            rw [hnm]
            cases hr : Remote.from_repo repo nm with
            | error e => simp [hr]
            | ok remote => cases hs : Status.from_repo repo <;> simp [hr]

/-- Witness for C9: a concrete repository with no short branch name makes
classify panic, and a concrete well-formed repository never panics. -/
theorem missing_shorthand_is_panic_witness :
    GitInfo.from_repo noNameRepo = .panic ∧
    GitInfo.from_repo branchRepo ≠ .panic :=
  ⟨missing_shorthand_is_panic.1 noNameRepo
      ⟨.ok "deadbeefdeadbeefdeadbeefdeadbeefdeadbeef", none⟩
      "deadbeefdeadbeefdeadbeefdeadbeefdeadbeef" rfl rfl rfl rfl,
   missing_shorthand_is_panic.2 branchRepo (by
      intro h hh
      injection hh with h1
      subst h1
      rfl)⟩

/-- C5: the Remote Distance Resolver returns `None` exactly when the
upstream lookup reports not-found; any `Some` result carries the
upstream's name and a present distance; and it fails only when the
upstream lookup did not report not-found. -/
theorem remote_resolver_contract (repo : Repo) (lb : String) :
    (Remote.from_repo repo lb = .ok none ↔
      ∃ (branch : LocalBranch) (e : GError),
        repo.find_branch lb = .ok branch ∧ branch.upstream = .error e ∧
        e.code = ErrorCode.NotFound) ∧
    (∀ r : Remote, Remote.from_repo repo lb = .ok (some r) →
      ∃ (branch : LocalBranch) (upstream : UpstreamBranch) (nm : String),
        repo.find_branch lb = .ok branch ∧ branch.upstream = .ok upstream ∧
        upstream.name = .ok (some nm) ∧ r.branch = nm ∧
        r.distance.isSome) ∧
    (∀ e : AError, Remote.from_repo repo lb = .error e →
      ¬ ∃ (branch : LocalBranch) (e2 : GError),
        repo.find_branch lb = .ok branch ∧ branch.upstream = .error e2 ∧
        e2.code = ErrorCode.NotFound) := by
  cases hfb : repo.find_branch lb with
  | error e => simp [Remote.from_repo, hfb]
  | ok branch =>
    cases hup : branch.upstream with
    | error e =>
      by_cases hc : e.code = ErrorCode.NotFound
      · simp [Remote.from_repo, hfb, hup, hc]
      · simp [Remote.from_repo, hfb, hup, hc]
    | ok upstream =>
      cases hlc : branch.peel_to_commit with
      | error e => simp [Remote.from_repo, hfb, hup, hlc]
      | ok lc =>
        cases huc : upstream.peel_to_commit with
        | error e => simp [Remote.from_repo, hfb, hup, hlc, huc]
        | ok uc =>
          cases hab : repo.graph_ahead_behind lc uc with
          | error e => simp [Remote.from_repo, hfb, hup, hlc, huc, hab]
          | ok ab =>
            obtain ⟨ahead, behind⟩ := ab
            cases hnm : upstream.name with
            | error e => simp [Remote.from_repo, hfb, hup, hlc, huc, hab, hnm]
            | ok onm =>
              cases onm with
              | none =>
                simp [Remote.from_repo, hfb, hup, hlc, huc, hab, hnm]
              | some nm =>
                simp [Remote.from_repo, hfb, hup, hlc, huc, hab, hnm]

/-- Witness for C5: on the repository whose branch has no configured
upstream, the resolver returns `None`. -/
theorem remote_resolver_contract_witness :
    Remote.from_repo noUpstreamRepo "feature" = .ok none :=
  (remote_resolver_contract noUpstreamRepo "feature").1.mpr
    ⟨noUpstreamBranch, ⟨ErrorCode.NotFound⟩, rfl, rfl, rfl⟩

/-- C8: when the upstream exists but its name is not representable as
text, the resolver fails with the descriptive error message that names
the offending local branch. -/
theorem non_text_upstream_name_error :
    ∀ (repo : Repo) (lb : String) (branch : LocalBranch)
      (upstream : UpstreamBranch) (lc uc : Oid) (ab : Nat × Nat),
      repo.find_branch lb = .ok branch →
      branch.upstream = .ok upstream →
      branch.peel_to_commit = .ok lc →
      upstream.peel_to_commit = .ok uc →
      repo.graph_ahead_behind lc uc = .ok ab →
      upstream.name = .ok none →
      Remote.from_repo repo lb =
        .error (.msg ("non-UTF8 upstream branch name for local branch  "
          ++ lb)) := by
  intro repo lb branch upstream lc uc ab hfb hup hlc huc hab hnm
  obtain ⟨ahead, behind⟩ := ab
  simp [Remote.from_repo, hfb, hup, hlc, huc, hab, hnm]

/-- Witness for C8: the concrete repository with a non-UTF-8 upstream name
makes the resolver fail with the message naming branch `dev`. -/
theorem non_text_upstream_name_error_witness :
    Remote.from_repo nonUtf8Repo "dev" =
      .error (.msg ("non-UTF8 upstream branch name for local branch  "
        ++ "dev")) :=
  non_text_upstream_name_error nonUtf8Repo "dev" nonUtf8Branch nonUtf8Upstream
    "a1b2c3d4a1b2c3d4a1b2c3d4a1b2c3d4a1b2c3d4"
    "e5f6a7b8e5f6a7b8e5f6a7b8e5f6a7b8e5f6a7b8" (0, 0) rfl rfl rfl rfl rfl rfl

/-- C3 counterexample: when repository discovery reports not-found, the
program prints nothing and exits with code 0 — a silent success, not a
reportable failure with non-zero exit status. -/
theorem not_a_repository_counterexample :
    mainResult notFoundDiscover = .ok ("", 0) ∧
    ¬ ∃ out rc, mainResult notFoundDiscover = .ok (out, rc) ∧ rc ≠ 0 := by
  constructor
  · rfl
  · rintro ⟨out, rc, hm, hrc⟩
    have h0 : mainResult notFoundDiscover = .ok ("", 0) := rfl
    rw [h0] at hm
    simp_all

/-- C3 amended: when the starting location is not inside any recognized
repository (discovery fails with not-found), the program treats it as a
silent success: empty standard output and exit code 0. -/
theorem not_a_repository_silent_success :
    ∀ e : GError, e.code = ErrorCode.NotFound →
      mainResult (.error e) = .ok ("", 0) := by
  intro e he
  simp [mainResult, info, he]

/-- Witness for C3: the amended claim at the concrete not-found error. -/
theorem not_a_repository_silent_success_witness :
    mainResult (.error ⟨ErrorCode.NotFound⟩) = .ok ("", 0) :=
  not_a_repository_silent_success ⟨ErrorCode.NotFound⟩ rfl
